import Mathlib

/-!
Verification of the article-generation pipeline of the `airticles` repository.

The embedding models the route handler in the generation endpoint
(`GET` in the generation route file): loading a posts document, resolving
it to a list of posts, formatting each post, deduplicating by resolved
title against the persisted article collection, invoking the external
generation service, and persisting the combined collection.

File-system state is passed explicitly: the articles file is modelled as
`Option (List GeneratedArticle)` (`none` = file absent).  The external
OpenAI call is modelled as an oracle `gen : String → Option String`
(`none` = the call throws).  The `numPosts` query parameter is modelled as
the result of `parseInt`: `Option Int`, with `none` standing for `NaN`.
Timestamps are supplied by an oracle `ts : Nat → String` indexed by the
position of the post in the processing order.
-/

namespace Airticles

/-- JavaScript truthiness of an optional string field: the field is truthy
iff it is present and non-empty. -/
def jsTruthy (o : Option String) : Bool :=
  match o with
  | none => false
  | some s => s ≠ ""

/-- JavaScript `o || d` on an optional string: the default is used when the
field is absent or is the empty string (both are falsy). -/
def jsOr (o : Option String) (d : String) : String :=
  match o with
  | none => d
  | some s => if s = "" then d else s

/-- End index of JavaScript `xs.slice(0, e)` where `e : Option Int` models a
number that may be `NaN` (`none`).  `ToIntegerOrInfinity NaN = 0`; a
negative end counts from the end of the array, clamped at `0`. -/
def jsSliceEnd (len : Nat) (e : Option Int) : Nat :=
  match e with
  | none => 0
  | some n => if n < 0 then ((len : Int) + n).toNat else n.toNat

/-- JavaScript `xs.slice(0, e)`. -/
def jsSlice0 {α : Type} (xs : List α) (e : Option Int) : List α :=
  xs.take (jsSliceEnd xs.length e)

/-- A reply in the comment tree (interface `Reply`): optional text and a
further list of nested replies, which the formatter never consumes. -/
inductive Reply : Type where
  | mk : Option String → List Reply → Reply

/-- Text of a reply. -/
def Reply.text : Reply → Option String
  | .mk t _ => t

/-- Nested replies of a reply (ignored by the formatter). -/
def Reply.replies : Reply → List Reply
  | .mk _ rs => rs

/-- A comment on a post (interface `Comment`). -/
structure Comment : Type where
  text : Option String
  replies : Option (List Reply)

/-- A source post (interface `Post`); every field is optional. -/
structure Post : Type where
  title : Option String
  author : Option String
  text : Option String
  comments : Option (List Comment)

/-- A persisted article record (interface `GeneratedArticle`). -/
structure GeneratedArticle : Type where
  originalTitle : String
  originalAuthor : String
  generatedArticle : String
  timestamp : String
deriving DecidableEq, Repr

/-- The parsed contents of `posts.json`: either a single object (typed as
`Post` by the handler) or an array of posts. -/
inductive PostData : Type where
  | one : Post → PostData
  | many : List Post → PostData

/-- Rendering of the reply block of one comment: at most the first two
replies, each as a quoted line (`formatPostData`, reply loop). -/
def formatReplies (rs : Option (List Reply)) : String :=
  match rs with
  | some replies =>
      if replies.length > 0 then
        String.join ((replies.take 2).map (fun r => "> Reply: " ++ jsOr r.text "" ++ "\n\n"))
      else ""
  | none => ""

/-- Rendering of one comment block (`formatPostData`, comment loop). -/
def formatComment (c : Comment) : String :=
  "**Comment by " ++ (if jsTruthy c.text then "user" else "unknown") ++ "**:\n"
    ++ jsOr c.text "" ++ "\n\n" ++ formatReplies c.replies

/-- `formatPostData`: heading, attribution, body, then (when comments
exist) a "Top Comments" section over the first five comments. -/
def formatPostData (post : Post) : String :=
  let title := post.title.getD ""
  let author := post.author.getD ""
  let text := post.text.getD ""
  let comments := post.comments.getD []
  let base := "# " ++ title ++ "\n\n**Posted by " ++ author ++ "**\n\n" ++ text ++ "\n\n"
  if comments.length > 0 then
    base ++ "## Top Comments\n\n" ++ String.join ((comments.take 5).map formatComment)
  else base

/-- Resolution of the loaded document to a list of posts (`GET`, the
`posts` branching): a truthy `title` or truthy `text` field selects the
single-post interpretation; an array is used as-is; any other object is
wrapped as a one-element array. -/
def resolvePosts (pd : PostData) : List Post :=
  match pd with
  | .one p =>
      if jsTruthy p.title then [p]
      else if jsTruthy p.text then [p]
      else [p]
  | .many ps => ps

/-- The existing articles as loaded by the handler: empty when the file is
absent or `force` is set (the handler only reads the file when it exists
and `force` is not set). -/
def loadedArticles (file : Option (List GeneratedArticle)) (force : Bool) :
    List GeneratedArticle :=
  match file with
  | some arts => if force then [] else arts
  | none => []

/-- The set of already-processed titles, as a list (`new Set(existingArticles
.map(a => a.originalTitle))`). -/
def processedTitles (file : Option (List GeneratedArticle)) (force : Bool) :
    List String :=
  (loadedArticles file force).map (fun a => a.originalTitle)

/-- Posts whose resolved title (`post.title || 'Untitled Post'`) is not in
the processed set, in original order. -/
def unprocessedPosts (pd : PostData) (file : Option (List GeneratedArticle))
    (force : Bool) : List Post :=
  (resolvePosts pd).filter
    (fun p => !((processedTitles file force).contains (jsOr p.title "Untitled Post")))

/-- The posts selected for processing: `unprocessedPosts.slice(0, numPosts)`. -/
def selectedPosts (pd : PostData) (file : Option (List GeneratedArticle))
    (np : Option Int) (force : Bool) : List Post :=
  jsSlice0 (unprocessedPosts pd file force) np

/-- Construction of one persisted record from a post, the generated body
and a timestamp. -/
def mkArticle (p : Post) (body : String) (t : String) : GeneratedArticle :=
  { originalTitle := jsOr p.title "Untitled Post"
    originalAuthor := jsOr p.author "Unknown Author"
    generatedArticle := body
    timestamp := t }

/-- The sequential generation loop over the selected posts.  Returns the
number of generation-service calls made and `some` of the new articles, or
`none` as soon as one call fails (the thrown error propagates and the loop
does not continue).  `i` is the index of the first post in the overall
processing order (used for the timestamp oracle). -/
def genLoop (gen : String → Option String) (ts : Nat → String) :
    List Post → Nat → Nat × Option (List GeneratedArticle)
  | [], _ => (0, some [])
  | p :: rest, i =>
      match gen (formatPostData p) with
      | none => (1, none)
      | some body =>
          let r := genLoop gen ts rest (i + 1)
          (r.1 + 1, r.2.map (fun more => mkArticle p body (ts i) :: more))

/-- Message of the zero-unprocessed short-circuit path. -/
def noNewMsg : String :=
  "No new posts to process. All posts have already been generated into articles."

/-- Message of the success path, reporting new and total counts. -/
def genMsg (newCount total : Nat) : String :=
  "Generated " ++ toString newCount ++ " new articles. Total: " ++ toString total

/-- Error message surfaced when a generation call fails (`generateArticle`
rethrows this fixed message, and the handler returns it to the caller). -/
def errMsg : String := "Failed to generate article"

/-- The JSON response of the trigger endpoint: `ok` carries `success:true`
with a message and the article list (HTTP 200); `err` carries
`success:false` with an error string (HTTP 500). -/
inductive GetResult : Type where
  | ok : String → List GeneratedArticle → GetResult
  | err : String → GetResult
deriving DecidableEq, Repr

/-- HTTP status of a response. -/
def GetResult.statusCode : GetResult → Nat
  | .ok _ _ => 200
  | .err _ => 500

/-- Outcome of one invocation of the trigger endpoint: the response, the
contents of the articles file afterwards, and how many generation-service
calls were made. -/
structure GetOutcome : Type where
  response : GetResult
  fileAfter : Option (List GeneratedArticle)
  genCalls : Nat
deriving DecidableEq, Repr

/-- The trigger endpoint (`GET` of the generation route), for a request
whose posts document loaded successfully: load existing articles, filter
and slice the posts, short-circuit when nothing is selected, otherwise run
the generation loop and, on success, persist existing ++ new. -/
def GETgen (gen : String → Option String) (ts : Nat → String) (pd : PostData)
    (file : Option (List GeneratedArticle)) (np : Option Int) (force : Bool) :
    GetOutcome :=
  let existingArticles := loadedArticles file force
  let postsToProcess := selectedPosts pd file np force
  if postsToProcess.length = 0 then
    { response := .ok noNewMsg existingArticles, fileAfter := file, genCalls := 0 }
  else
    let r := genLoop gen ts postsToProcess 0
    match r.2 with
    | none => { response := .err errMsg, fileAfter := file, genCalls := r.1 }
    | some newArticles =>
        let allArticles := existingArticles ++ newArticles
        { response := .ok (genMsg newArticles.length allArticles.length) allArticles
          fileAfter := some allArticles
          genCalls := r.1 }

/-- Resolution policy written from the specification's words (§4.1), for
comparison with `resolvePosts`: non-empty `title` ⇒ one post; else a `text`
field ⇒ one post; else a sequence is used as-is; else wrap as a
one-element sequence. -/
def specResolvePosts (pd : PostData) : List Post :=
  match pd with
  | .one p =>
      if jsTruthy p.title then [p]
      else if p.text.isSome then [p]
      else [p]
  | .many ps => ps

/-- Whether `pat` occurs at the head of `s`. -/
def patAt : List Char → List Char → Bool
  | [], _ => true
  | _ :: _, [] => false
  | a :: as, b :: bs => a == b && patAt as bs

/-- Number of positions of `s` at which `pat` occurs. -/
def countPat (pat : List Char) : List Char → Nat
  | [] => 0
  | c :: rest => (if patAt pat (c :: rest) then 1 else 0) + countPat pat rest

/-- Number of occurrences of the pattern `pat` in the string `s`. -/
def countSubstr (s pat : String) : Nat := countPat pat.data s.data

/-- A reply with its deeper nesting removed. -/
def truncReplyTree (r : Reply) : Reply := Reply.mk r.text []

/-- A comment restricted to the first two replies, each with deeper
nesting removed. -/
def truncComment (c : Comment) : Comment :=
  { text := c.text
    replies := c.replies.map (fun rs => (rs.take 2).map truncReplyTree) }

/-- A post restricted to the first five comments, each truncated. -/
def truncPost (p : Post) : Post :=
  { p with comments := p.comments.map (fun cs => (cs.take 5).map truncComment) }

/-! Concrete instances used by counterexamples and witnesses. -/

/-- A generation oracle that always succeeds with body `"B"`. -/
def gen0 : String → Option String := fun _ => some "B"

/-- A constant timestamp oracle. -/
def ts0 : Nat → String := fun _ => "T"

/-- A post titled `"A"`. -/
def postA : Post :=
  { title := some "A", author := some "aa", text := some "ta", comments := none }

/-- A post titled `"B"`. -/
def postB : Post :=
  { title := some "B", author := some "ab", text := some "tb", comments := none }

/-- A post titled `"X"`. -/
def postX : Post :=
  { title := some "X", author := some "ax", text := some "tx", comments := none }

/-- A post with no title and no author. -/
def postU1 : Post :=
  { title := none, author := none, text := some "t1", comments := none }

/-- A second post with no title. -/
def postU2 : Post :=
  { title := none, author := some "a2", text := some "t2", comments := none }

/-- The article produced from `postA` by `gen0`/`ts0`. -/
def artA : GeneratedArticle := mkArticle postA "B" "T"

/-- The article produced from `postB` by `gen0`/`ts0`. -/
def artB : GeneratedArticle := mkArticle postB "B" "T"

/-- An already-persisted article with original title `"X"`. -/
def artX : GeneratedArticle :=
  { originalTitle := "X", originalAuthor := "old", generatedArticle := "old", timestamp := "t0" }

/-- A second post titled `"X"`, by a different author. -/
def postX2 : Post :=
  { title := some "X", author := some "ay", text := some "ty", comments := none }

/-- A generation oracle that fails exactly on the formatted text of
`postB` and succeeds elsewhere. -/
def genF : String → Option String :=
  fun s => if s = formatPostData postB then none else some "B"

/-- A post with ten comments, each carrying five replies. -/
def bigPost : Post :=
  { title := some "T", author := some "A", text := some "X"
    comments := some (List.replicate 10
      { text := some "c", replies := some (List.replicate 5 (Reply.mk (some "r") [])) }) }

/-! Supporting lemmas about the generation loop and the handler. -/

/-- Characterization of a successful run of the generation loop: one call
per post, and the produced records carry the resolved title and author of
the corresponding post, in processing order. -/
lemma genLoop_ok_spec (gen : String → Option String) (ts : Nat → String) :
    ∀ (ps : List Post) (i n : Nat) (arts : List GeneratedArticle),
      genLoop gen ts ps i = (n, some arts) →
      n = ps.length ∧
      arts.map (fun a => a.originalTitle) = ps.map (fun p => jsOr p.title "Untitled Post") ∧
      arts.map (fun a => a.originalAuthor) = ps.map (fun p => jsOr p.author "Unknown Author") := by
  intro ps
  induction ps with
  | nil =>
      intro i n arts h
      simp only [genLoop, Prod.mk.injEq, Option.some.injEq] at h
      obtain ⟨h1, h2⟩ := h
      subst h1
      subst h2
      simp
  | cons p rest ih =>
      intro i n arts h
      simp only [genLoop] at h
      cases hg : gen (formatPostData p) with
      | none => rw [hg] at h; simp at h
      | some body =>
          rw [hg] at h
          rcases hr : genLoop gen ts rest (i + 1) with ⟨k, r2⟩
          rw [hr] at h
          cases r2 with
          | none => simp at h
          | some more =>
              simp only [Option.map_some', Prod.mk.injEq, Option.some.injEq] at h
              obtain ⟨hn, harts⟩ := h
              obtain ⟨hk, ht, ha⟩ := ih (i + 1) k more hr
              subst hn harts hk
              refine ⟨by simp, ?_, ?_⟩ <;> simp [mkArticle, ht, ha]

/-- When every generation call on the list succeeds, the loop succeeds and
makes exactly one call per post. -/
lemma genLoop_total (gen : String → Option String) (ts : Nat → String) :
    ∀ (ps : List Post) (i : Nat),
      (∀ p ∈ ps, (gen (formatPostData p)).isSome) →
      ∃ arts, genLoop gen ts ps i = (ps.length, some arts) := by
  intro ps
  induction ps with
  | nil => intro i _; exact ⟨[], rfl⟩
  | cons p rest ih =>
      intro i hall
      have hp : (gen (formatPostData p)).isSome := hall p (by simp)
      rcases Option.isSome_iff_exists.mp hp with ⟨body, hg⟩
      obtain ⟨arts, hr⟩ := ih (i + 1) (fun q hq => hall q (by simp [hq]))
      refine ⟨mkArticle p body (ts i) :: arts, ?_⟩
      simp only [genLoop, hg, hr]
      simp

/-- When some generation call on the list fails, the loop fails, having
made exactly one call past the successful leading calls. -/
lemma genLoop_fail (gen : String → Option String) (ts : Nat → String) :
    ∀ (ps : List Post) (i : Nat),
      (∃ p ∈ ps, gen (formatPostData p) = none) →
      genLoop gen ts ps i =
        ((ps.takeWhile (fun p => (gen (formatPostData p)).isSome)).length + 1, none) := by
  intro ps
  induction ps with
  | nil => intro i h; simp at h
  | cons p rest ih =>
      intro i h
      cases hg : gen (formatPostData p) with
      | none =>
          simp only [genLoop, hg, List.takeWhile_cons]
          simp [hg]
      | some body =>
          have hrest : ∃ q ∈ rest, gen (formatPostData q) = none := by
            rcases h with ⟨q, hq, hqn⟩
            rcases List.mem_cons.mp hq with rfl | hq'
            · rw [hg] at hqn; cases hqn
            · exact ⟨q, hq', hqn⟩
          have hr := ih (i + 1) hrest
          simp only [genLoop, hg, hr, List.takeWhile_cons]
          simp [hg]

/-- Every selected post comes from the resolved input sequence and its
resolved title is not among the already-processed titles. -/
lemma mem_selectedPosts {pd : PostData} {file : Option (List GeneratedArticle)}
    {np : Option Int} {force : Bool} {p : Post}
    (h : p ∈ selectedPosts pd file np force) :
    p ∈ resolvePosts pd ∧
      jsOr p.title "Untitled Post" ∉ processedTitles file force := by
  have h1 : p ∈ unprocessedPosts pd file force := List.take_subset _ _ h
  rw [unprocessedPosts, List.mem_filter] at h1
  refine ⟨h1.1, ?_⟩
  have := h1.2
  simpa using this

/-- The short-circuit path of the handler: nothing selected. -/
lemma GETgen_shortcircuit (gen : String → Option String) (ts : Nat → String)
    (pd : PostData) (file : Option (List GeneratedArticle)) (np : Option Int)
    (force : Bool) (h : selectedPosts pd file np force = []) :
    GETgen gen ts pd file np force =
      { response := .ok noNewMsg (loadedArticles file force)
        fileAfter := file, genCalls := 0 } := by
  simp [GETgen, h]

/-- The failure path of the handler: the loop failed, the error response is
returned and the file is not written. -/
lemma GETgen_err (gen : String → Option String) (ts : Nat → String)
    (pd : PostData) (file : Option (List GeneratedArticle)) (np : Option Int)
    (force : Bool) (k : Nat)
    (h : genLoop gen ts (selectedPosts pd file np force) 0 = (k, none)) :
    GETgen gen ts pd file np force =
      { response := .err errMsg, fileAfter := file, genCalls := k } := by
  have hne : selectedPosts pd file np force ≠ [] := by
    intro he
    rw [he] at h
    simp only [genLoop, Prod.mk.injEq] at h
    exact Option.noConfusion h.2
  simp [GETgen, h, List.length_eq_zero, hne]

/-- The success path of the handler: the loop succeeded, the combined
collection is returned and persisted. -/
lemma GETgen_success (gen : String → Option String) (ts : Nat → String)
    (pd : PostData) (file : Option (List GeneratedArticle)) (np : Option Int)
    (force : Bool) (k : Nat) (arts : List GeneratedArticle)
    (hne : selectedPosts pd file np force ≠ [])
    (h : genLoop gen ts (selectedPosts pd file np force) 0 = (k, some arts)) :
    GETgen gen ts pd file np force =
      { response := .ok (genMsg arts.length (loadedArticles file force ++ arts).length)
          (loadedArticles file force ++ arts)
        fileAfter := some (loadedArticles file force ++ arts)
        genCalls := k } := by
  simp [GETgen, h, List.length_eq_zero, hne]

/-- Truncating the reply list to its first two entries (and dropping
deeper nesting) does not change the rendered reply block. -/
lemma formatReplies_trunc (rs : Option (List Reply)) :
    formatReplies (rs.map (fun l => (l.take 2).map truncReplyTree)) = formatReplies rs := by
  cases rs with
  | none => rfl
  | some l =>
      simp only [Option.map_some', formatReplies]
      rcases l with _ | ⟨r, rest⟩
      · rfl
      · simp only [List.length_cons, List.length_map, List.length_take]
        rw [if_pos (by simp), if_pos (by simp)]
        rw [← List.map_take, List.take_take]
        simp only [Nat.min_self, List.map_map]
        rfl

/-- Truncating a comment does not change its rendered block. -/
lemma formatComment_trunc (c : Comment) : formatComment (truncComment c) = formatComment c := by
  simp only [formatComment, truncComment]
  rw [formatReplies_trunc]

/-- Claim C7: the loaded JSON document is resolved to a post sequence by
the ordered policy of the spec — non-empty `title` ⇒ single post; else
`text` ⇒ single post; else a sequence is used as-is; else the object is
wrapped as a single-element sequence.  The handler's resolution agrees
with the spec's policy on every document. -/
theorem resolution_policy_matches_spec :
    ∀ pd : PostData, resolvePosts pd = specResolvePosts pd := by
  intro pd
  cases pd with
  | one p =>
      simp only [resolvePosts, specResolvePosts]
      split_ifs <;> rfl
  | many ps => rfl

/-- Claim C9: the processed-title set is computed once, before the
generation loop, and is not updated as articles are generated; a single
request over two posts that both resolve to the title `"Untitled Post"`
(with `numPosts = 2`) generates and persists two entries with the same
`originalTitle`. -/
theorem duplicate_titles_single_request :
    (GETgen gen0 ts0 (PostData.many [postU1, postU2]) (some []) (some 2) false).fileAfter
        = some [mkArticle postU1 "B" "T", mkArticle postU2 "B" "T"]
    ∧ (mkArticle postU1 "B" "T").originalTitle = "Untitled Post"
    ∧ (mkArticle postU2 "B" "T").originalTitle = "Untitled Post" := by
  decide

set_option maxRecDepth 100000 in
/-- Claim C6: the formatter renders at most the first five comments, each
with at most its first two replies as quoted lines, ignoring deeper reply
nesting (truncating a post to that bound leaves the rendered block
unchanged); concretely, a post with ten comments of five replies each
renders exactly five comment entries and ten reply lines (two per shown
comment). -/
theorem formatter_bounds :
    (∀ p : Post, formatPostData (truncPost p) = formatPostData p)
    ∧ countSubstr (formatPostData bigPost) "**Comment by " = 5
    ∧ countSubstr (formatPostData bigPost) "> Reply: " = 10 := by
  refine ⟨?_, by decide, by decide⟩
  intro p
  obtain ⟨t, a, x, cs⟩ := p
  cases cs with
  | none => rfl
  | some l =>
      simp only [formatPostData, truncPost, Option.map_some', Option.getD_some]
      rcases l with _ | ⟨c, rest⟩
      · rfl
      · simp only [List.length_cons, List.length_map, List.length_take]
        rw [if_pos (by simp), if_pos (by simp)]
        rw [← List.map_take, List.take_take]
        simp only [Nat.min_self, List.map_map]
        have : formatComment ∘ truncComment = formatComment := by
          funext c'
          exact formatComment_trunc c'
        rw [this]

/-- Claim C10, counterexample: a request whose `numPosts` parses to the
negative value `-1`, over two unprocessed posts, selects one post (JS
`slice(0, -1)` drops only the last element), calls the generation service
once, and rewrites the articles file — contradicting the claim that a
negative `numPosts` yields zero selected posts, no service call and an
unchanged file. -/
theorem negative_numPosts_selects_cex :
    (selectedPosts (PostData.many [postA, postB]) (some []) (some (-1)) false).length = 1
    ∧ (GETgen gen0 ts0 (PostData.many [postA, postB]) (some []) (some (-1)) false).genCalls = 1
    ∧ (GETgen gen0 ts0 (PostData.many [postA, postB]) (some []) (some (-1)) false).fileAfter
        ≠ some [] := by
  decide

/-- Claim C10 (amended): for every request in which zero posts are
selected — including when `numPosts` does not parse (`parseInt` yields
`NaN`, modelled as `none`), parses to zero, or parses to a negative value
whose magnitude is at least the number of unprocessed posts — the trigger
endpoint returns `success:true` without calling the generation service and
without writing the articles file.  (A negative value of smaller magnitude
selects `len + n` posts, per JS `slice`, so the original claim's blanket
negative case is wrong.) -/
theorem zero_selected_no_effects :
    ∀ (gen : String → Option String) (ts : Nat → String) (pd : PostData)
      (file : Option (List GeneratedArticle)) (np : Option Int) (force : Bool),
      (selectedPosts pd file np force = [] →
        GETgen gen ts pd file np force =
          { response := .ok noNewMsg (loadedArticles file force)
            fileAfter := file, genCalls := 0 })
      ∧ (np = none ∨ np = some 0 → selectedPosts pd file np force = [])
      ∧ (∀ n : Int, np = some n → n < 0 →
          ((unprocessedPosts pd file force).length : Int) + n ≤ 0 →
          selectedPosts pd file np force = []) := by
  intro gen ts pd file np force
  refine ⟨GETgen_shortcircuit gen ts pd file np force, ?_, ?_⟩
  · rintro (rfl | rfl) <;> simp [selectedPosts, jsSlice0, jsSliceEnd]
  · rintro n rfl hn hle
    simp only [selectedPosts, jsSlice0, jsSliceEnd, if_pos hn]
    rw [Int.toNat_of_nonpos hle]
    simp

/-- Witness for the amended C10 theorem at a concrete input with
`numPosts = 0`. -/
theorem zero_selected_no_effects_witness :
    selectedPosts (PostData.many [postA]) (some []) (some 0) false = []
    ∧ GETgen gen0 ts0 (PostData.many [postA]) (some []) (some 0) false =
        { response := .ok noNewMsg (loadedArticles (some []) false)
          fileAfter := some [], genCalls := 0 } :=
  ⟨rfl, (zero_selected_no_effects gen0 ts0 (PostData.many [postA]) (some []) (some 0) false).1 rfl⟩

/-- Claim C1: when the persisted collection already contains an entry with
`originalTitle = X` and `force` is not set, a request never adds a second
entry titled `X`: no selected post has resolved title `X` (it is filtered
out by the processed-title set), and on every path the resulting file
holds exactly as many `X`-titled entries as before. -/
theorem dedup_no_second_entry :
    ∀ (gen : String → Option String) (ts : Nat → String) (pd : PostData)
      (arts : List GeneratedArticle) (np : Option Int) (X : String),
      X ∈ arts.map (fun a => a.originalTitle) →
      (∀ p ∈ selectedPosts pd (some arts) np false,
          jsOr p.title "Untitled Post" ≠ X)
      ∧ ∃ l, (GETgen gen ts pd (some arts) np false).fileAfter = some l
          ∧ l.countP (fun a => a.originalTitle == X)
              = arts.countP (fun a => a.originalTitle == X) := by
  intro gen ts pd arts np X hX
  have hproc : X ∈ processedTitles (some arts) false := by
    simpa [processedTitles, loadedArticles] using hX
  have hkey : ∀ p ∈ selectedPosts pd (some arts) np false,
      jsOr p.title "Untitled Post" ≠ X := by
    intro p hp heq
    exact (mem_selectedPosts hp).2 (heq ▸ hproc)
  refine ⟨hkey, ?_⟩
  by_cases hsel : selectedPosts pd (some arts) np false = []
  · rw [GETgen_shortcircuit gen ts pd (some arts) np false hsel]
    exact ⟨arts, rfl, rfl⟩
  · rcases hloop : genLoop gen ts (selectedPosts pd (some arts) np false) 0 with ⟨k, r2⟩
    cases r2 with
    | none =>
        rw [GETgen_err gen ts pd (some arts) np false k hloop]
        exact ⟨arts, rfl, rfl⟩
    | some newArts =>
        rw [GETgen_success gen ts pd (some arts) np false k newArts hsel hloop]
        refine ⟨loadedArticles (some arts) false ++ newArts, rfl, ?_⟩
        have hzero : newArts.countP (fun a => a.originalTitle == X) = 0 := by
          rw [List.countP_eq_zero]
          intro a ha
          have hmap := (genLoop_ok_spec gen ts _ 0 k newArts hloop).2.1
          have hmem : a.originalTitle ∈
              (selectedPosts pd (some arts) np false).map
                (fun p => jsOr p.title "Untitled Post") := by
            rw [← hmap]
            exact List.mem_map_of_mem _ ha
          rcases List.mem_map.mp hmem with ⟨p, hp, hpe⟩
          have hne := hkey p hp
          rw [hpe] at hne
          simpa using hne
        rw [List.countP_append, hzero]
        simp [loadedArticles]

/-- Witness for the C1 theorem: the collection already holds an `"X"`
entry, the input contains a post titled `"X"`, and the request adds no
second `"X"` entry. -/
theorem dedup_no_second_entry_witness :
    ("X" ∈ ([artX].map (fun a => a.originalTitle)))
    ∧ ((∀ p ∈ selectedPosts (PostData.many [postX, postA]) (some [artX]) (some 5) false,
          jsOr p.title "Untitled Post" ≠ "X")
      ∧ ∃ l, (GETgen gen0 ts0 (PostData.many [postX, postA]) (some [artX]) (some 5) false).fileAfter
            = some l
          ∧ l.countP (fun a => a.originalTitle == "X")
              = [artX].countP (fun a => a.originalTitle == "X")) :=
  ⟨by decide,
    dedup_no_second_entry gen0 ts0 (PostData.many [postX, postA]) [artX] (some 5) "X" (by decide)⟩

/-- Claim C2: with `force=true` the existing collection is ignored for
dedup — the articles are loaded as empty, so every input post counts as
unprocessed (posts already present regenerate) — and on success the
combined collection (loaded-as-empty existing ++ new, which may contain
duplicate titles) is persisted. -/
theorem force_ignores_existing :
    ∀ (gen : String → Option String) (ts : Nat → String) (pd : PostData)
      (file : Option (List GeneratedArticle)) (np : Option Int),
      loadedArticles file true = []
      ∧ unprocessedPosts pd file true = resolvePosts pd
      ∧ (∀ (k : Nat) (newArts : List GeneratedArticle),
          genLoop gen ts (selectedPosts pd file np true) 0 = (k, some newArts) →
          newArts ≠ [] →
          (GETgen gen ts pd file np true).fileAfter
              = some (loadedArticles file true ++ newArts)
          ∧ (GETgen gen ts pd file np true).response
              = .ok (genMsg newArts.length (loadedArticles file true ++ newArts).length)
                  (loadedArticles file true ++ newArts)) := by
  intro gen ts pd file np
  have h1 : loadedArticles file true = [] := by
    cases file <;> simp [loadedArticles]
  have h2 : unprocessedPosts pd file true = resolvePosts pd := by
    rw [unprocessedPosts, List.filter_eq_self]
    intro p _
    simp [processedTitles, h1]
  refine ⟨h1, h2, ?_⟩
  intro k newArts hloop hne
  have hsel : selectedPosts pd file np true ≠ [] := by
    intro he
    rw [he] at hloop
    simp only [genLoop, Prod.mk.injEq, Option.some.injEq] at hloop
    exact hne hloop.2.symm
  rw [GETgen_success gen ts pd file np true k newArts hsel hloop]
  exact ⟨rfl, rfl⟩

/-- Witness for the C2 theorem: the persisted file already holds an `"X"`
entry; with `force=true` two input posts both titled `"X"` are selected and
regenerated, and the persisted combined collection holds two entries with
the same title. -/
theorem force_ignores_existing_witness :
    (genLoop gen0 ts0 (selectedPosts (PostData.many [postX, postX2]) (some [artX]) (some 2) true) 0
        = (2, some [mkArticle postX "B" "T", mkArticle postX2 "B" "T"]))
    ∧ ([mkArticle postX "B" "T", mkArticle postX2 "B" "T"]
        ≠ ([] : List GeneratedArticle))
    ∧ ((GETgen gen0 ts0 (PostData.many [postX, postX2]) (some [artX]) (some 2) true).fileAfter
          = some (loadedArticles (some [artX]) true
              ++ [mkArticle postX "B" "T", mkArticle postX2 "B" "T"])
      ∧ (GETgen gen0 ts0 (PostData.many [postX, postX2]) (some [artX]) (some 2) true).response
          = .ok (genMsg ([mkArticle postX "B" "T", mkArticle postX2 "B" "T"].length)
                  ((loadedArticles (some [artX]) true
                    ++ [mkArticle postX "B" "T", mkArticle postX2 "B" "T"]).length))
              (loadedArticles (some [artX]) true
                ++ [mkArticle postX "B" "T", mkArticle postX2 "B" "T"]))
    ∧ (mkArticle postX "B" "T").originalTitle = (mkArticle postX2 "B" "T").originalTitle :=
  ⟨by decide, by decide,
    (force_ignores_existing gen0 ts0 (PostData.many [postX, postX2]) (some [artX]) (some 2)).2.2
      2 [mkArticle postX "B" "T", mkArticle postX2 "B" "T"] (by decide) (by decide),
    by decide⟩

/-- Claim C3: when the generation service fails for any selected post, the
whole request aborts: the loop stops right after the first failing call
(call count = leading successes + 1), nothing is persisted (the articles
file keeps its prior contents), and the caller receives `success:false`
with the generic message and HTTP status 500. -/
theorem genFailure_aborts_request :
    ∀ (gen : String → Option String) (ts : Nat → String) (pd : PostData)
      (file : Option (List GeneratedArticle)) (np : Option Int) (force : Bool),
      (∃ p ∈ selectedPosts pd file np force, gen (formatPostData p) = none) →
      GETgen gen ts pd file np force =
        { response := .err errMsg
          fileAfter := file
          genCalls :=
            ((selectedPosts pd file np force).takeWhile
                (fun p => (gen (formatPostData p)).isSome)).length + 1 }
      ∧ (GETgen gen ts pd file np force).response.statusCode = 500 := by
  intro gen ts pd file np force hex
  have hloop := genLoop_fail gen ts (selectedPosts pd file np force) 0 hex
  have h := GETgen_err gen ts pd file np force _ hloop
  refine ⟨h, ?_⟩
  rw [h]
  rfl

/-- Witness for the C3 theorem: of two selected posts the generation call
fails on the second; the request errors with status 500, the file is
unchanged, and exactly two calls were made. -/
theorem genFailure_aborts_request_witness :
    (∃ p ∈ selectedPosts (PostData.many [postA, postB]) (some []) (some 5) false,
        genF (formatPostData p) = none)
    ∧ (GETgen genF ts0 (PostData.many [postA, postB]) (some []) (some 5) false =
        { response := .err errMsg
          fileAfter := some []
          genCalls :=
            ((selectedPosts (PostData.many [postA, postB]) (some []) (some 5) false).takeWhile
                (fun p => (genF (formatPostData p)).isSome)).length + 1 }
      ∧ (GETgen genF ts0 (PostData.many [postA, postB]) (some []) (some 5) false).response.statusCode
          = 500) :=
  ⟨by decide,
    genFailure_aborts_request genF ts0 (PostData.many [postA, postB]) (some []) (some 5) false
      (by decide)⟩

/-- Claim C4: for a request without `force` that processes at least one
post (with a non-negative parsed `numPosts`), the selected posts are the
first `numPosts` elements of the order-preserving filter of the loaded
posts by unprocessed title (fewer if not enough remain), and the persisted
result is the existing collection with the new articles appended at the
end in processing order, the existing entries unchanged and in place. -/
theorem selection_and_append_order :
    ∀ (gen : String → Option String) (ts : Nat → String) (pd : PostData)
      (file : Option (List GeneratedArticle)) (n : Int) (k : Nat)
      (newArts : List GeneratedArticle),
      0 ≤ n →
      genLoop gen ts (selectedPosts pd file (some n) false) 0 = (k, some newArts) →
      newArts ≠ [] →
      selectedPosts pd file (some n) false
          = (unprocessedPosts pd file false).take n.toNat
      ∧ (GETgen gen ts pd file (some n) false).fileAfter
          = some (loadedArticles file false ++ newArts)
      ∧ (GETgen gen ts pd file (some n) false).response
          = .ok (genMsg newArts.length (loadedArticles file false ++ newArts).length)
              (loadedArticles file false ++ newArts)
      ∧ newArts.map (fun a => a.originalTitle)
          = (selectedPosts pd file (some n) false).map
              (fun p => jsOr p.title "Untitled Post") := by
  intro gen ts pd file n k newArts hn hloop hne0
  have hsel_eq : selectedPosts pd file (some n) false
      = (unprocessedPosts pd file false).take n.toNat := by
    simp [selectedPosts, jsSlice0, jsSliceEnd, not_lt.mpr hn]
  have hne : selectedPosts pd file (some n) false ≠ [] := by
    intro he
    rw [he] at hloop
    simp only [genLoop, Prod.mk.injEq, Option.some.injEq] at hloop
    exact hne0 hloop.2.symm
  have hs := GETgen_success gen ts pd file (some n) false k newArts hne hloop
  exact ⟨hsel_eq, by rw [hs], by rw [hs],
    (genLoop_ok_spec gen ts _ 0 k newArts hloop).2.1⟩

/-- Witness for the C4 theorem: two unprocessed posts, `numPosts = 1`; the
first post alone is selected and the single new article is appended to the
(empty) existing collection. -/
theorem selection_and_append_order_witness :
    ((0 : Int) ≤ 1)
    ∧ (genLoop gen0 ts0 (selectedPosts (PostData.many [postA, postB]) (some []) (some 1) false) 0
        = (1, some [artA]))
    ∧ ([artA] ≠ ([] : List GeneratedArticle))
    ∧ (selectedPosts (PostData.many [postA, postB]) (some []) (some 1) false
          = (unprocessedPosts (PostData.many [postA, postB]) (some []) false).take (1 : Int).toNat
      ∧ (GETgen gen0 ts0 (PostData.many [postA, postB]) (some []) (some 1) false).fileAfter
          = some (loadedArticles (some []) false ++ [artA])
      ∧ (GETgen gen0 ts0 (PostData.many [postA, postB]) (some []) (some 1) false).response
          = .ok (genMsg [artA].length (loadedArticles (some []) false ++ [artA]).length)
              (loadedArticles (some []) false ++ [artA])
      ∧ [artA].map (fun a => a.originalTitle)
          = (selectedPosts (PostData.many [postA, postB]) (some []) (some 1) false).map
              (fun p => jsOr p.title "Untitled Post")) :=
  ⟨by decide, by decide, by decide,
    selection_and_append_order gen0 ts0 (PostData.many [postA, postB]) (some []) 1 1 [artA]
      (by decide) (by decide) (by decide)⟩

/-- Claim C5, counterexample: with two input posts and `numPosts = 1`, the
first call persists one article, but the second call with the same
`numPosts` and unchanged input generates the second post — it reports one
new article (not the zero-new message), writes a different collection, and
makes one generation call — refuting the claim for every request shape. -/
theorem second_call_regenerates_cex :
    (GETgen gen0 ts0 (PostData.many [postA, postB]) (some []) (some 1) false).fileAfter
        = some [artA]
    ∧ (GETgen gen0 ts0 (PostData.many [postA, postB]) (some [artA]) (some 1) false).response
        ≠ .ok noNewMsg [artA]
    ∧ (GETgen gen0 ts0 (PostData.many [postA, postB]) (some [artA]) (some 1) false).fileAfter
        ≠ some [artA]
    ∧ (GETgen gen0 ts0 (PostData.many [postA, postB]) (some [artA]) (some 1) false).genCalls
        = 1 := by
  decide

/-- Claim C5 (amended): calling the trigger endpoint twice in succession
with the same `numPosts` and no new input posts added yields, on the
second call, the zero-new short-circuit — the nothing-new message, the
first call's collection returned verbatim, no generation call, and no
write — provided the first call could process every unprocessed post
(`numPosts` at least their number; otherwise the second call processes the
next batch, as the counterexample shows). -/
theorem second_call_idempotent_when_all_fit :
    ∀ (gen : String → Option String) (ts : Nat → String) (pd : PostData)
      (arts : List GeneratedArticle) (n : Int),
      0 ≤ n →
      (unprocessedPosts pd (some arts) false).length ≤ n.toNat →
      (∀ p ∈ selectedPosts pd (some arts) (some n) false,
          (gen (formatPostData p)).isSome) →
      ∃ l1, (GETgen gen ts pd (some arts) (some n) false).fileAfter = some l1
        ∧ GETgen gen ts pd (some l1) (some n) false =
            { response := .ok noNewMsg l1, fileAfter := some l1, genCalls := 0 } := by
  intro gen ts pd arts n hn hlen hgen
  have hsel_eq : selectedPosts pd (some arts) (some n) false
      = unprocessedPosts pd (some arts) false := by
    simp only [selectedPosts, jsSlice0, jsSliceEnd, if_neg (not_lt.mpr hn)]
    exact List.take_of_length_le hlen
  by_cases hu : unprocessedPosts pd (some arts) false = []
  · have hsel : selectedPosts pd (some arts) (some n) false = [] := hsel_eq.trans hu
    refine ⟨arts, ?_, ?_⟩
    · rw [GETgen_shortcircuit gen ts pd (some arts) (some n) false hsel]
    · have hsel' : selectedPosts pd (some arts) (some n) false = [] := hsel
      rw [GETgen_shortcircuit gen ts pd (some arts) (some n) false hsel']
      simp [loadedArticles]
  · have hne : selectedPosts pd (some arts) (some n) false ≠ [] := by
      rw [hsel_eq]; exact hu
    obtain ⟨newArts, hloop⟩ :=
      genLoop_total gen ts (selectedPosts pd (some arts) (some n) false) 0 hgen
    have h1 := GETgen_success gen ts pd (some arts) (some n) false _ newArts hne hloop
    have hloaded : loadedArticles (some arts) false = arts := by simp [loadedArticles]
    have htitles : newArts.map (fun a => a.originalTitle)
        = (unprocessedPosts pd (some arts) false).map
            (fun p => jsOr p.title "Untitled Post") := by
      have h := (genLoop_ok_spec gen ts _ 0 _ newArts hloop).2.1
      rw [hsel_eq] at h
      exact h
    have hptitles : processedTitles (some (arts ++ newArts)) false
        = arts.map (fun a => a.originalTitle) ++ newArts.map (fun a => a.originalTitle) := by
      simp [processedTitles, loadedArticles]
    have hu2 : unprocessedPosts pd (some (arts ++ newArts)) false = [] := by
      rw [unprocessedPosts, List.filter_eq_nil_iff]
      intro p hp
      have hmem : jsOr p.title "Untitled Post"
          ∈ processedTitles (some (arts ++ newArts)) false := by
        rw [hptitles]
        by_cases hk : jsOr p.title "Untitled Post" ∈ arts.map (fun a => a.originalTitle)
        · exact List.mem_append_left _ hk
        · refine List.mem_append_right _ ?_
          rw [htitles]
          refine List.mem_map.mpr ⟨p, ?_, rfl⟩
          rw [unprocessedPosts, List.mem_filter]
          refine ⟨hp, ?_⟩
          simp only [processedTitles, hloaded]
          simpa using hk
      simpa using hmem
    have hsel2 : selectedPosts pd (some (arts ++ newArts)) (some n) false = [] := by
      simp [selectedPosts, jsSlice0, hu2]
    refine ⟨arts ++ newArts, ?_, ?_⟩
    · rw [h1]
      rw [hloaded]
    · rw [GETgen_shortcircuit gen ts pd (some (arts ++ newArts)) (some n) false hsel2]
      simp [loadedArticles]

/-- Witness for the amended C5 theorem: a single input post, `numPosts=1`;
the first call persists its article and the second call short-circuits
with the zero-new message and the identical collection. -/
theorem second_call_idempotent_witness :
    ((0 : Int) ≤ 1)
    ∧ ((unprocessedPosts (PostData.many [postA]) (some []) false).length ≤ (1 : Int).toNat)
    ∧ (∀ p ∈ selectedPosts (PostData.many [postA]) (some []) (some 1) false,
        (gen0 (formatPostData p)).isSome)
    ∧ (∃ l1, (GETgen gen0 ts0 (PostData.many [postA]) (some []) (some 1) false).fileAfter
          = some l1
        ∧ GETgen gen0 ts0 (PostData.many [postA]) (some l1) (some 1) false =
            { response := .ok noNewMsg l1, fileAfter := some l1, genCalls := 0 }) :=
  ⟨by decide, by decide, by decide,
    second_call_idempotent_when_all_fit gen0 ts0 (PostData.many [postA]) [] 1
      (by decide) (by decide) (by decide)⟩

/-- Claim C8: every processed post with no `title` is recorded with
`originalTitle = "Untitled Post"` and every post with no `author` with
`originalAuthor = "Unknown Author"` (the generated records carry exactly
the resolved title and author of their post), and the resolved
`originalTitle` — with this default — is the dedup key tested against the
processed-title set. -/
theorem defaults_and_dedup_key :
    (∀ (gen : String → Option String) (ts : Nat → String) (ps : List Post)
        (n : Nat) (arts : List GeneratedArticle),
        genLoop gen ts ps 0 = (n, some arts) →
        arts.map (fun a => a.originalTitle)
            = ps.map (fun p => jsOr p.title "Untitled Post")
        ∧ arts.map (fun a => a.originalAuthor)
            = ps.map (fun p => jsOr p.author "Unknown Author"))
    ∧ (∀ (p : Post) (body t : String), p.title = none →
        (mkArticle p body t).originalTitle = "Untitled Post")
    ∧ (∀ (p : Post) (body t : String), p.author = none →
        (mkArticle p body t).originalAuthor = "Unknown Author")
    ∧ (∀ (pd : PostData) (file : Option (List GeneratedArticle)) (force : Bool) (p : Post),
        p ∈ unprocessedPosts pd file force ↔
          p ∈ resolvePosts pd ∧
            jsOr p.title "Untitled Post" ∉ processedTitles file force) := by
  refine ⟨?_, ?_, ?_, ?_⟩
  · intro gen ts ps n arts h
    exact ⟨(genLoop_ok_spec gen ts ps 0 n arts h).2.1,
      (genLoop_ok_spec gen ts ps 0 n arts h).2.2⟩
  · intro p body t h
    simp [mkArticle, jsOr, h]
  · intro p body t h
    simp [mkArticle, jsOr, h]
  · intro pd file force p
    rw [unprocessedPosts, List.mem_filter]
    simp

/-- Witness for the C8 theorem at a post with neither title nor author:
the generated record carries both placeholder values. -/
theorem defaults_and_dedup_key_witness :
    (genLoop gen0 ts0 [postU1] 0 = (1, some [mkArticle postU1 "B" "T"]))
    ∧ ([mkArticle postU1 "B" "T"].map (fun a => a.originalTitle)
          = [postU1].map (fun p => jsOr p.title "Untitled Post")
      ∧ [mkArticle postU1 "B" "T"].map (fun a => a.originalAuthor)
          = [postU1].map (fun p => jsOr p.author "Unknown Author"))
    ∧ (postU1.title = none)
    ∧ ((mkArticle postU1 "B" "T").originalTitle = "Untitled Post")
    ∧ ((mkArticle postU1 "B" "T").originalAuthor = "Unknown Author") :=
  ⟨by decide,
    defaults_and_dedup_key.1 gen0 ts0 [postU1] 1 [mkArticle postU1 "B" "T"] (by decide),
    by decide,
    defaults_and_dedup_key.2.1 postU1 "B" "T" (by decide),
    defaults_and_dedup_key.2.2.1 postU1 "B" "T" (by decide)⟩

end Airticles
